import Mathlib

/-!
Verification of the CVAE plotting script `src/06_4주차/plot.py`
(KimGiHu/KAERI-Intership).

The development shallowly embeds the parts of the script that the
specification talks about:

* the convolution / pooling / upsampling / transposed-convolution length
  arithmetic of `Encoder`, `Decoder`, `CVAE.__init__` (shape round-trip);
* the final sigmoid + dropout stage of `Decoder.forward` (output bounds);
* `CVAE.reparameterize` (with the Gaussian noise draw as an explicit
  parameter), `loss_function` (sum-of-squares + closed-form KL with the
  `1e-8` offset inside the sum), modelled over the reals;
* the module-level scaler fitting / transform loops as an event trace;
* the channel-group index branches of those loops;
* the RFQ averaging loop, including the numpy view aliasing of
  `avg_RFQ_Xnormal = Xnormal_RFQ[:1,:,:]` (in-place `+=` writes through);
* the top-level statement list of the script with `exit()` semantics.
-/

namespace HVCM

/-! ## Layer length arithmetic (Encoder / Decoder, plot.py lines 36-156) -/

/-- Output length of a 1-d convolution or max-pooling layer in PyTorch
(dilation 1): `floor((L + 2*padding - (kernel-1) - 1) / stride) + 1`. -/
def convLayerLen (kernel padding stride L : ℕ) : ℕ :=
  (L + 2 * padding - (kernel - 1) - 1) / stride + 1

/-- `Encoder.calc_seq_len` (plot.py lines 54-61): the reduced time length
after conv1/pool1/conv2/pool2/conv3/pool3, written exactly as the source
computes it with Python integer division. -/
def calc_seq_len (seq_len : ℕ) : ℕ :=
  let s1 := (seq_len + 2 * 6 - 12) / 1 + 1
  let s2 := (s1 - 2) / 2 + 1
  let s3 := (s2 + 2 * 6 - 12) / 1 + 1
  let s4 := (s3 - 2) / 2 + 1
  let s5 := (s4 + 2 * 6 - 12) / 1 + 1
  (s5 - 2) / 2 + 1

/-- Time length produced by the encoder's actual layer stack: three blocks
of `Conv1d(kernel=12, padding=6, stride=1)` followed by
`MaxPool1d(kernel=2, stride=2)` (plot.py lines 39-52, 71-91). -/
def encoderOutLen (L : ℕ) : ℕ :=
  convLayerLen 2 0 2 (convLayerLen 12 6 1
    (convLayerLen 2 0 2 (convLayerLen 12 6 1
      (convLayerLen 2 0 2 (convLayerLen 12 6 1 L)))))

/-- Output length of `nn.Upsample(scale_factor=s)` on a length-`L` input. -/
def upsampleLen (scale L : ℕ) : ℕ := scale * L

/-- Output length of `nn.Upsample(size=n)`: the target size, independent of
the input length. -/
def upsampleToLen (size : ℕ) (_L : ℕ) : ℕ := size

/-- Output length of `nn.ConvTranspose1d` (dilation 1, output_padding 0):
`(L-1)*stride + (kernel-1) + 1 - 2*padding`. -/
def convTransposeLen (kernel padding stride L : ℕ) : ℕ :=
  (L - 1) * stride + (kernel - 1) + 1 - 2 * padding

/-- Time length produced by the decoder's layer stack on a reduced input of
length `L` (plot.py lines 115-149): `up1` (scale 2), `trans_conv1`
(kernel 12, padding 6), `up2` (scale 2), `trans_conv2`, `up3`
(`size=4501`), `trans_conv3`. -/
def decoderOutLen (L : ℕ) : ℕ :=
  convTransposeLen 12 6 1 (upsampleToLen 4501
    (convTransposeLen 12 6 1 (upsampleLen 2
      (convTransposeLen 12 6 1 (upsampleLen 2 L)))))

/-! ## Channel groups and the scaler event trace
(plot.py lines 248-251, 307-327, 430-438) -/

/-- The four per-channel-group `MinMaxScaler` instances
`scaler_IGBT`, `scaler_FLUX`, `scaler_CAP`, `scaler_MOD`
(plot.py lines 248-251). -/
inductive ScalerId where
  | IGBT
  | FLUX
  | CAP
  | MOD
deriving DecidableEq

/-- The arrays the scaling loops touch: `Xnormal_concat` (standardized in
place by lines 295-303 before the first min-max loop), the raw copy
`Xnormal_concat_tmp`, and the held-out `data_test`. -/
inductive DataTag where
  | concatStd
  | concatRaw
  | testSample
deriving DecidableEq

/-- One scaler call in the module-level loops: `fit` records a
`fit_transform` call (which refits the scaler on the given channel of the
given array), `applyTr` a parameter-preserving `transform` call. -/
inductive SEvent where
  | fit (s : ScalerId) (d : DataTag) (ch : ℕ)
  | applyTr (s : ScalerId) (d : DataTag) (ch : ℕ)
deriving DecidableEq

/-- Which group scaler the loop body addresses for channel `i`, written
with the source's branch conditions `i>=0 and i<=5`, `i>=6 and i<=8`,
`i>=9 and i<=10`, `i>=11` (plot.py lines 308-315); the branches are
pairwise disjoint (theorem `C8_partition`), so each iteration addresses
exactly one scaler. -/
def channelGroup (i : ℕ) : ScalerId :=
  if 0 ≤ i ∧ i ≤ 5 then ScalerId.IGBT
  else if 6 ≤ i ∧ i ≤ 8 then ScalerId.FLUX
  else if 9 ≤ i ∧ i ≤ 10 then ScalerId.CAP
  else ScalerId.MOD

/-- Events of one `for i in range(len(features))` loop that calls
`<group scaler>.fit_transform` on channel `i` of array `d`
(plot.py lines 307-315 for `d = concatStd`, 319-327 for
`d = concatRaw`): each `fit_transform` fits and then transforms. -/
def fitTransformEvents (d : DataTag) : List SEvent :=
  (List.range 14).flatMap fun i =>
    [SEvent.fit (channelGroup i) d i, SEvent.applyTr (channelGroup i) d i]

/-- Events of the `data_test` loop (plot.py lines 430-438), which calls
`<group scaler>.transform` only. -/
def testTransformEvents : List SEvent :=
  (List.range 14).map fun i =>
    SEvent.applyTr (channelGroup i) DataTag.testSample i

/-- The scaler calls issued by the straight-line code the claim cites, in
source order: the two min-max `fit_transform` loops (lines 307-315 and
319-327) followed by the `data_test` `transform` loop (lines 430-438). -/
def scalerTrace : List SEvent :=
  fitTransformEvents DataTag.concatStd ++
  fitTransformEvents DataTag.concatRaw ++
  testTransformEvents

/-- True on `fit` events. -/
def isFitEvent : SEvent → Bool
  | SEvent.fit _ _ _ => true
  | SEvent.applyTr _ _ _ => false

/-- Number of times scaler `s` is (re)fitted in trace `t`. -/
def fitCount (s : ScalerId) (t : List SEvent) : ℕ :=
  t.countP fun e =>
    match e with
    | SEvent.fit s2 _ _ => decide (s2 = s)
    | SEvent.applyTr _ _ _ => false

/-- Number of `fit` events touching array `d` in trace `t`. -/
def fitCountOn (d : DataTag) (t : List SEvent) : ℕ :=
  t.countP fun e =>
    match e with
    | SEvent.fit _ d2 _ => decide (d2 = d)
    | SEvent.applyTr _ _ _ => false

/-- Runs a trace with mutable scaler states (the fitted parameters,
identified by the array and channel last fitted on, `none` = unfitted)
and returns, for each `transform` call on `data_test`, the channel being
transformed together with the parameters the scaler holds at that
moment. -/
def testParamsUsed (st : ScalerId → Option (DataTag × ℕ)) :
    List SEvent → List (ℕ × Option (DataTag × ℕ))
  | [] => []
  | SEvent.fit s d ch :: rest =>
      testParamsUsed (fun s2 => if s2 = s then some (d, ch) else st s2) rest
  | SEvent.applyTr s d ch :: rest =>
      (if d = DataTag.testSample then [(ch, st s)] else [])
        ++ testParamsUsed st rest

/-- Count of times the branch conditions of the scaling loop fire for
channel index `i` (plot.py lines 308-315): the four `if` statements are
independent, so an index matched by more than one would be rescaled more
than once per loop. -/
def branchCount (i : ℕ) : ℕ :=
  (if 0 ≤ i ∧ i ≤ 5 then 1 else 0) +
  (if 6 ≤ i ∧ i ≤ 8 then 1 else 0) +
  (if 9 ≤ i ∧ i ≤ 10 then 1 else 0) +
  (if 11 ≤ i then 1 else 0)

/-! ## RFQ averaging loop with numpy view aliasing
(plot.py lines 259-268) -/

/-- One iteration `avg_RFQ_Xnormal += Xnormal_RFQ[i,:,:]` of the averaging
loop, restricted to one fixed (time step, channel) element so that a
state is the map from sample index to that element's value.
`avg_RFQ_Xnormal` was bound to the basic slice `Xnormal_RFQ[:1,:,:]`
(line 262), a numpy view of row 0, so the in-place `+=` writes through
to row 0 of `Xnormal_RFQ`. -/
def rfqStep (st : ℕ → ℚ) (i : ℕ) : ℕ → ℚ :=
  fun r => if r = 0 then st 0 + st i else st r

/-- State of `Xnormal_RFQ` (one fixed element per row) after the loop
`for i in range(1, 524)` has run its first `n` iterations
(`i = 1, …, n`). -/
def rfqLoop (st : ℕ → ℚ) : ℕ → (ℕ → ℚ)
  | 0 => st
  | n + 1 => rfqStep (rfqLoop st n) (n + 1)

/-- Final state of `Xnormal_RFQ` after the full loop (`i = 1, …, 523`) and
the per-channel division `avg_RFQ_Xnormal[:,:,i] /= 524` (lines 267-268),
which also writes through the view into row 0. -/
def rfqFinalState (st : ℕ → ℚ) : ℕ → ℚ :=
  fun r => if r = 0 then rfqLoop st 523 0 / 524 else rfqLoop st 523 r

/-- A concrete loaded dataset (one fixed element per sample): the first
RFQ normal sample holds `1`, samples `1, …, 523` hold `0`. -/
def rfqDemoData : ℕ → ℚ := fun r => if r = 0 then 1 else 0

/-! ## Top-level control flow of the script (plot.py lines 187-516) -/

/-- The module-level statements of the script, abstracted to labelled
steps in source order. -/
inductive ScriptStep where
  | loadArrays          -- lines 187-195: np.load per subsystem
  | buildLabels         -- lines 207-214: per-subsystem label vectors
  | splitFaultNormal    -- lines 217-230: Run/Fault partition
  | concatAll           -- lines 233-234: concatenate normal/fault arrays
  | buildOneHot         -- lines 237-238: one-hot condition vectors
  | initScalers         -- lines 241-251: scaler instances (unfitted)
  | buildTrainConcat    -- lines 253-255: 524-per-subsystem concatenation
  | averageRFQ          -- lines 259-269: RFQ averaging loop
  | saveAvgFigures      -- lines 272-291: averaged-signal figures
  | exitCall1           -- line 293: unconditional exit()
  | standardizeLoop     -- lines 295-303: StandardScaler fit_transform
  | minMaxFitLoopStd    -- lines 307-315: min-max fit on Xnormal_concat
  | minMaxFitLoopRaw    -- lines 319-327: min-max fit on Xnormal_concat_tmp
  | standardFitLoopRaw  -- lines 331-339: standard fit on the raw copy
  | plotOverlay         -- lines 345-381: per-subsystem overlay figures
  | plotAllSamples      -- lines 385-409: all-sample figures
  | exitCall2           -- line 411: second exit()
  | minMaxFitLoop3      -- lines 412-420: third min-max fit loop
  | buildDataTest       -- lines 424-429: data_test slice
  | transformDataTest   -- lines 430-438: scaler.transform on data_test
  | buildCVAE           -- lines 449-455: CVAE construction + optimizer
  | loadCheckpoint      -- line 459: model.load_state_dict
  | evalReconstruction  -- lines 462-479: model.eval() forward pass
  | plotReconstruction  -- lines 496-516: reconstruction figures
deriving DecidableEq

/-- True on the `exit()` statements. -/
def isExitStep : ScriptStep → Bool
  | ScriptStep.exitCall1 => true
  | ScriptStep.exitCall2 => true
  | _ => false

/-- The script's top-level statements in source order. -/
def scriptSteps : List ScriptStep :=
  [ScriptStep.loadArrays, ScriptStep.buildLabels, ScriptStep.splitFaultNormal,
   ScriptStep.concatAll, ScriptStep.buildOneHot, ScriptStep.initScalers,
   ScriptStep.buildTrainConcat, ScriptStep.averageRFQ,
   ScriptStep.saveAvgFigures, ScriptStep.exitCall1,
   ScriptStep.standardizeLoop, ScriptStep.minMaxFitLoopStd,
   ScriptStep.minMaxFitLoopRaw, ScriptStep.standardFitLoopRaw,
   ScriptStep.plotOverlay, ScriptStep.plotAllSamples, ScriptStep.exitCall2,
   ScriptStep.minMaxFitLoop3, ScriptStep.buildDataTest,
   ScriptStep.transformDataTest, ScriptStep.buildCVAE,
   ScriptStep.loadCheckpoint, ScriptStep.evalReconstruction,
   ScriptStep.plotReconstruction]

/-- Steps a top-to-bottom run actually executes: everything up to and
including the first statement for which `isExitStep` holds (`exit()`
terminates the process). -/
def executedSteps : List ScriptStep → List ScriptStep
  | [] => []
  | s :: rest => if isExitStep s then [s] else s :: executedSteps rest

/-- Shape of a (channels × time) tensor. -/
structure TensorShape where
  channels : ℕ
  len : ℕ
deriving DecidableEq

/-- `input_dim = 14` (plot.py line 449). -/
def input_dim : ℕ := 14

/-- `hidden_dim = 4500`, the time length handed to `CVAE` as `seq_len`
(plot.py line 450). -/
def hidden_dim : ℕ := 4500

/-- Shape of the waveform fed to the model: 14 channels × 4500 steps. -/
def cvaeInputShape : TensorShape := ⟨input_dim, hidden_dim⟩

/-- Shape of the reconstruction returned by `CVAE.forward`: the decoder is
constructed with `self.encoder.seq_len = calc_seq_len(4500)` and
`output_dim = input_dim` (plot.py lines 152-156), so its output has
`input_dim` channels and `decoderOutLen (calc_seq_len hidden_dim)` steps. -/
def cvaeReconShape : TensorShape :=
  ⟨input_dim, decoderOutLen (calc_seq_len hidden_dim)⟩

/-! ## Decoder output activation (plot.py lines 147-150) -/

/-- The logistic sigmoid `torch.sigmoid`. -/
noncomputable def sigmoid (x : ℝ) : ℝ := 1 / (1 + Real.exp (-x))

/-- Elementwise behaviour of `nn.Dropout(p)`: in training mode a dropped
element becomes `0` and a kept element is rescaled by `1/(1-p)`; in
evaluation mode (after `model.eval()`, plot.py line 462) it is the
identity. The Bernoulli keep/drop draw is the explicit `keep` argument. -/
noncomputable def dropoutLayer (training : Bool) (p : ℝ) (keep : Bool)
    (x : ℝ) : ℝ :=
  if training then (if keep then x / (1 - p) else 0) else x

/-- One element of `Decoder.forward`'s return value
`self.conv3_dropout(torch.sigmoid(self.trans_conv3(h)))` (plot.py
line 149): `pre` is the corresponding pre-activation element produced by
`trans_conv3`, and `conv3_dropout` has `p = 0.2`. -/
noncomputable def decoderOutputElem (training keep : Bool) (pre : ℝ) : ℝ :=
  dropoutLayer training 0.2 keep (sigmoid pre)

/-! ## Reparameterization (plot.py lines 158-161) -/

/-- `CVAE.reparameterize` elementwise over a latent vector:
`std = torch.exp(0.5 * logvar)`, `eps = torch.randn_like(std)`,
result `mu + eps * std`; the standard-normal draw `eps` is an explicit
argument. -/
noncomputable def reparameterize {n : ℕ} (mu logvar eps : Fin n → ℝ) :
    Fin n → ℝ :=
  fun i => mu i + eps i * Real.exp (0.5 * logvar i)

/-! ## Loss function (plot.py lines 171-174) -/

/-- `nn.functional.mse_loss(x_recon, x, reduction='sum')`: squared
differences summed, not averaged, over all elements. -/
noncomputable def mseLossSum {ι : Type} [Fintype ι] (x_recon x : ι → ℝ) : ℝ :=
  ∑ i, (x_recon i - x i) ^ 2

/-- The `KLD` term of `loss_function`:
`-0.5 * torch.sum(1 + logvar - mu.pow(2) - logvar.exp() + 1e-8)`; note the
`1e-8` offset is added inside the sum, once per latent element. -/
noncomputable def KLDterm {κ : Type} [Fintype κ] (mu logvar : κ → ℝ) : ℝ :=
  -0.5 * ∑ i, (1 + logvar i - (mu i) ^ 2 - Real.exp (logvar i) + 1e-8)

/-- `loss_function(x_recon, x, mu, logvar)` (plot.py lines 171-174):
`BCE + 1*KLD` where `BCE` is the summed squared error. -/
noncomputable def loss_function {ι κ : Type} [Fintype ι] [Fintype κ]
    (x_recon x : ι → ℝ) (mu logvar : κ → ℝ) : ℝ :=
  mseLossSum x_recon x + 1 * KLDterm mu logvar

/-- C1: a full CVAE forward pass on a (14, 4500) input returns a
reconstruction of exactly the input shape: `calc_seq_len 4500 = 563`,
this agrees with the encoder's actual conv/pool arithmetic, and the
decoder's upsample / transposed-convolution chain maps 563 back to 4500
time steps with 14 output channels. -/
theorem C1_shape_roundtrip :
    calc_seq_len 4500 = 563 ∧
    encoderOutLen 4500 = calc_seq_len 4500 ∧
    decoderOutLen (calc_seq_len 4500) = 4500 ∧
    cvaeReconShape = cvaeInputShape := by
  decide

/-- C2: every element of the reconstruction returned by `Decoder.forward`
lies in `[0, 1]`. The script invokes the decoder only after
`model.eval()` (plot.py lines 462-467), so `conv3_dropout` is the
identity (`training = false`) and the final activation is the bounded
sigmoid; the bound holds for every pre-activation value and every
dropout draw. -/
theorem C2_output_in_unit_interval (keep : Bool) (pre : ℝ) :
    0 ≤ decoderOutputElem false keep pre ∧
    decoderOutputElem false keep pre ≤ 1 := by
  have hred : decoderOutputElem false keep pre = sigmoid pre := by
    simp [decoderOutputElem, dropoutLayer]
  have hpos : (0 : ℝ) < 1 + Real.exp (-pre) := by positivity
  have hone : (1 : ℝ) ≤ 1 + Real.exp (-pre) := by
    have := Real.exp_pos (-pre); linarith
  rw [hred]
  constructor
  · simp only [sigmoid]
    positivity
  · simp only [sigmoid]
    rw [div_le_one hpos]; exact hone

/-- C3: `CVAE.reparameterize` returns elementwise
`mu + exp(0.5·logvar) · eps`, and when `logvar` is the zero vector it
degenerates to `mu + eps` (standard deviation `exp 0 = 1`). -/
theorem C3_reparameterize {n : ℕ} (mu logvar eps : Fin n → ℝ) :
    (∀ i, reparameterize mu logvar eps i
        = mu i + Real.exp (0.5 * logvar i) * eps i) ∧
    reparameterize mu (fun _ => 0) eps = fun i => mu i + eps i := by
  constructor
  · intro i; simp [reparameterize, mul_comm]
  · funext i; simp [reparameterize]

/-- C4: `loss_function` is the sum-of-squared-error term plus the
closed-form KL term `-0.5·Σ(1 + logvar - mu² - exp logvar + 1e-8)`, both
at unweighted-sum scale: duplicating the batch (every tensor replaced by
two copies of itself over a doubled index type) exactly doubles the
returned loss. -/
theorem C4_loss_formula_and_scale {ι κ : Type} [Fintype ι] [Fintype κ]
    (x_recon x : ι → ℝ) (mu logvar : κ → ℝ) :
    loss_function x_recon x mu logvar
      = (∑ i, (x_recon i - x i) ^ 2)
        + -0.5 * ∑ i, (1 + logvar i - (mu i) ^ 2 - Real.exp (logvar i)
            + 1e-8) ∧
    loss_function (Sum.elim x_recon x_recon) (Sum.elim x x)
        (Sum.elim mu mu) (Sum.elim logvar logvar)
      = 2 * loss_function x_recon x mu logvar := by
  constructor
  · simp [loss_function, mseLossSum, KLDterm]
  · simp only [loss_function, mseLossSum, KLDterm, Fintype.sum_sum_type,
      Sum.elim_inl, Sum.elim_inr]
    ring

/-- C5 counterexample: with a single latent dimension and `mu = logvar = 0`
the KL term computed by `loss_function` is not exactly `0`: the `1e-8`
offset sits inside the sum, so the term evaluates to `-0.5e-8`. -/
theorem C5_counterexample :
    KLDterm (fun _ : Fin 1 => (0 : ℝ)) (fun _ => 0) ≠ 0 := by
  simp only [KLDterm, ne_eq]
  rw [Fin.sum_univ_one]
  norm_num [Real.exp_zero]

/-- C5 amended: with `mu` and `logvar` both the zero vector over `n`
latent entries, the KL term evaluates to exactly `-0.5 * n * 1e-8`
(within `n·1e-8` of `0`, but not `0` for `n ≥ 1`). -/
theorem C5_amended (n : ℕ) :
    KLDterm (fun _ : Fin n => (0 : ℝ)) (fun _ => 0)
      = -0.5 * n * 1e-8 := by
  simp only [KLDterm, Real.exp_zero]
  rw [Finset.sum_const, Finset.card_univ, Fintype.card_fin, nsmul_eq_mul]
  norm_num
  ring

/-- C6 counterexample: `loss_function` is not non-negative on all finite
inputs: at `x_recon = x = 0`, `mu = logvar = 0` over one latent
dimension it returns `-0.5e-8 < 0`. -/
theorem C6_counterexample :
    loss_function (fun _ : Fin 1 => (0 : ℝ)) (fun _ => 0)
      (fun _ : Fin 1 => (0 : ℝ)) (fun _ => 0) < 0 := by
  simp only [loss_function, mseLossSum, KLDterm]
  rw [Fin.sum_univ_one, Fin.sum_univ_one]
  norm_num [Real.exp_zero]

/-- C6 amended: for all finite inputs the loss is bounded below by
`-0.5 * n * 1e-8` where `n` is the number of latent entries: the
sum-of-squares term is non-negative and each KL summand
`1 + l - m² - exp l + 1e-8` is at most `1e-8` (since `1 + l ≤ exp l`
and `m² ≥ 0`), so the loss is non-negative up to the epsilon offset. -/
theorem C6_amended {ι κ : Type} [Fintype ι] [Fintype κ]
    (x_recon x : ι → ℝ) (mu logvar : κ → ℝ) :
    -0.5 * (Fintype.card κ) * 1e-8 ≤ loss_function x_recon x mu logvar := by
  have hmse : 0 ≤ mseLossSum x_recon x := by
    apply Finset.sum_nonneg
    intro i _
    positivity
  have hterm : ∀ i ∈ (Finset.univ : Finset κ),
      1 + logvar i - (mu i) ^ 2 - Real.exp (logvar i) + 1e-8
        ≤ (1e-8 : ℝ) := by
    intro i _
    have h1 : logvar i + 1 ≤ Real.exp (logvar i) := Real.add_one_le_exp _
    have h2 : 0 ≤ (mu i) ^ 2 := sq_nonneg _
    linarith
  have hsum : ∑ i, (1 + logvar i - (mu i) ^ 2 - Real.exp (logvar i) + 1e-8)
      ≤ (Finset.univ : Finset κ).card • (1e-8 : ℝ) :=
    Finset.sum_le_card_nsmul _ _ _ hterm
  rw [Finset.card_univ, nsmul_eq_mul] at hsum
  simp only [loss_function, KLDterm]
  nlinarith [hsum, hmse]

/-- C7 counterexample: `scaler_IGBT` is not fitted exactly once — the
trace of the cited loops refits it 12 times (once per IGBT channel in
each of the two `fit_transform` loops, lines 307-315 and 319-327). -/
theorem C7_counterexample :
    fitCount ScalerId.IGBT scalerTrace = 12 ∧
    fitCount ScalerId.IGBT scalerTrace ≠ 1 := by
  decide

/-- C7 amended: each group scaler is refitted once per channel of its
group in each of the two `fit_transform` loops (IGBT 12 times, FLUX 6,
CAP 4, MOD 6); no fit ever touches `data_test` (its loop uses
`transform` only); and each `data_test` channel is transformed with the
parameters of the scaler's most recent fit, namely the last channel of
its group on the raw copy `Xnormal_concat_tmp` (channel 5 statistics for
channels 0-5, channel 8 for 6-8, channel 10 for 9-10, channel 13 for
11-13) — not parameters fitted once on the whole normalization subset. -/
theorem C7_amended :
    fitCount ScalerId.IGBT scalerTrace = 12 ∧
    fitCount ScalerId.FLUX scalerTrace = 6 ∧
    fitCount ScalerId.CAP scalerTrace = 4 ∧
    fitCount ScalerId.MOD scalerTrace = 6 ∧
    fitCountOn DataTag.testSample scalerTrace = 0 ∧
    testTransformEvents.countP isFitEvent = 0 ∧
    testParamsUsed (fun _ => none) scalerTrace =
      [(0, some (DataTag.concatRaw, 5)), (1, some (DataTag.concatRaw, 5)),
       (2, some (DataTag.concatRaw, 5)), (3, some (DataTag.concatRaw, 5)),
       (4, some (DataTag.concatRaw, 5)), (5, some (DataTag.concatRaw, 5)),
       (6, some (DataTag.concatRaw, 8)), (7, some (DataTag.concatRaw, 8)),
       (8, some (DataTag.concatRaw, 8)), (9, some (DataTag.concatRaw, 10)),
       (10, some (DataTag.concatRaw, 10)), (11, some (DataTag.concatRaw, 13)),
       (12, some (DataTag.concatRaw, 13)),
       (13, some (DataTag.concatRaw, 13))] := by
  decide

/-- C8: the four channel-group branch conditions fire exactly once for
every index of the 14-channel axis (pairwise disjoint, jointly
covering), with group sizes 6 (IGBT), 3 (flux), 2 (capacitor) and
3 (modulator). -/
theorem C8_partition :
    (∀ i : Fin 14, branchCount i.val = 1) ∧
    (Finset.univ.filter fun i : Fin 14 => 0 ≤ i.val ∧ i.val ≤ 5).card = 6 ∧
    (Finset.univ.filter fun i : Fin 14 => 6 ≤ i.val ∧ i.val ≤ 8).card = 3 ∧
    (Finset.univ.filter fun i : Fin 14 => 9 ≤ i.val ∧ i.val ≤ 10).card = 2 ∧
    (Finset.univ.filter fun i : Fin 14 => 11 ≤ i.val).card = 3 := by
  decide

/-- Rows other than row 0 are never written by the averaging loop. -/
theorem rfqLoop_row_ne (st : ℕ → ℚ) (n : ℕ) (r : ℕ) (hr : r ≠ 0) :
    rfqLoop st n r = st r := by
  induction n with
  | zero => rfl
  | succ n ih => simp [rfqLoop, rfqStep, hr, ih]

/-- Row 0 accumulates the prefix sum of the loaded rows: iterations
`i = 1, …, n` each read the still-unmutated row `i` and add it into the
aliased row 0. -/
theorem rfqLoop_row_zero (st : ℕ → ℚ) (n : ℕ) :
    rfqLoop st n 0 = ∑ i ∈ Finset.range (n + 1), st i := by
  induction n with
  | zero => simp [rfqLoop]
  | succ n ih =>
      have h1 : rfqLoop st n (n + 1) = st (n + 1) :=
        rfqLoop_row_ne st n (n + 1) (Nat.succ_ne_zero n)
      simp [rfqLoop, rfqStep, ih, h1, Finset.sum_range_succ]

/-- C9: the averaging loop mutates `Xnormal_RFQ` through the view
`avg_RFQ_Xnormal = Xnormal_RFQ[:1,:,:]`. On the concrete dataset whose
first sample element is `1` and whose other 523 sample elements are `0`,
after the loop `Xnormal_RFQ[0]` holds the average `1/524`, not its
loaded value `1` (rows other than 0 are unchanged). -/
theorem C9_view_aliasing_mutation :
    rfqDemoData 0 = 1 ∧
    rfqFinalState rfqDemoData 0 = 1 / 524 ∧
    rfqFinalState rfqDemoData 0 ≠ rfqDemoData 0 ∧
    rfqFinalState rfqDemoData 1 = rfqDemoData 1 := by
  have hsum : rfqLoop rfqDemoData 523 0 = 1 := by
    rw [rfqLoop_row_zero]
    simp [rfqDemoData, Finset.sum_ite_eq']
  refine ⟨rfl, ?_, ?_, ?_⟩
  · simp [rfqFinalState, hsum]
  · simp only [rfqFinalState, if_pos rfl, hsum, rfqDemoData]
    norm_num
  · have h1 : rfqLoop rfqDemoData 523 1 = rfqDemoData 1 :=
      rfqLoop_row_ne rfqDemoData 523 1 one_ne_zero
    simp [rfqFinalState, h1]

/-- C10: a top-to-bottom run executes exactly the statements up to the
first `exit()` (line 293): data loading, label building, fault/normal
splitting, concatenation, one-hot construction, scaler instantiation,
the training concatenation, the RFQ averaging loop and the
averaged-signal figure saving; the normalization and scaler-fitting
loops, the `data_test` transform, the CVAE construction, the checkpoint
load and the reconstruction evaluation are never executed. -/
theorem C10_exit_reachability :
    executedSteps scriptSteps =
      [ScriptStep.loadArrays, ScriptStep.buildLabels,
       ScriptStep.splitFaultNormal, ScriptStep.concatAll,
       ScriptStep.buildOneHot, ScriptStep.initScalers,
       ScriptStep.buildTrainConcat, ScriptStep.averageRFQ,
       ScriptStep.saveAvgFigures, ScriptStep.exitCall1] ∧
    ScriptStep.standardizeLoop ∉ executedSteps scriptSteps ∧
    ScriptStep.minMaxFitLoopStd ∉ executedSteps scriptSteps ∧
    ScriptStep.minMaxFitLoopRaw ∉ executedSteps scriptSteps ∧
    ScriptStep.transformDataTest ∉ executedSteps scriptSteps ∧
    ScriptStep.buildCVAE ∉ executedSteps scriptSteps ∧
    ScriptStep.loadCheckpoint ∉ executedSteps scriptSteps ∧
    ScriptStep.evalReconstruction ∉ executedSteps scriptSteps := by
  decide

end HVCM
